import Mathlib

/-!
Shallow embedding of the "Model Manager Client" from `src/src/App.vue`
(a Vue 3 single-file component). The reactive refs of the script block
become the fields of `ClientState`; each `async` workflow
(`fetchLocalModels`, `addModel`) becomes a function from the prior state
and an oracle describing the Gateway's behaviour to the list of
intermediate states produced by its atomic assignments (one list entry
per assignment, in program order); the final state is the last entry.
The theme logic becomes a function on a `ThemeState` holding the
in-memory theme, the persisted `localStorage` value and the root
element's class.
-/

/-- One entry of the Gateway `GET /models` response (`data.models`). -/
structure LocalModel where
  name : String
  digest : String
  size : Nat
  modified_at : String
deriving DecidableEq

/-- The reactive state of the component: `localModels`, `newModelName`,
`statusMessage`, `isLoading`, `pullingModel`. -/
structure ClientState where
  localModels : List LocalModel
  newModelName : String
  statusMessage : String
  isLoading : Bool
  pullingModel : String
deriving DecidableEq

/-- The initial values of the refs: `[]`, `''`, `''`, `false`, `''`. -/
def initState : ClientState :=
  { localModels := [], newModelName := "", statusMessage := ""
    isLoading := false, pullingModel := "" }

/-- The fixed `discoverableModels` list embedded in the client. -/
def discoverableModels : List String :=
  ["llama3:8b", "gemma:7b", "phi3:latest", "mistral:latest",
   "codellama:7b", "llava:latest", "qwen:7b", "mixtral:latest"]

/-- Outcome of the Gateway `GET /models` call as observed by
`fetchLocalModels`: either the whole try-block raises (network error,
`!response.ok`, or a JSON parse failure), or it yields a parsed body
whose `models` field is present (`some`) or absent (`none`). -/
inductive ListResult where
  | failure
  | success (models : Option (List LocalModel))
deriving DecidableEq

/-- The streamed body of a successful `POST /models/pull` response:
`records` progress chunks before the stream either ends cleanly
(`endsInError = false`) or fails with a transport error whose message is
`errMsg`. A single `reader.read()` returns the first chunk when
`records > 0`, returns `done` when `records = 0` and the end is clean,
and rejects with `errMsg` when `records = 0` and the stream errors. -/
structure BodyStream where
  records : Nat
  endsInError : Bool
  errMsg : String
deriving DecidableEq

/-- Whether the single `response.body.getReader().read()` performed by
`addModel` rejects: only when the stream holds no chunk and errors. -/
def readFails (b : BodyStream) : Bool :=
  b.records == 0 && b.endsInError

/-- Whether that single read observes the transport's end-of-stream
signal (`done = true`): only when the stream holds no chunk and ends
cleanly. -/
def endOfStreamSignaled (b : BodyStream) : Bool :=
  b.records == 0 && !b.endsInError

/-- Outcome of the Gateway `POST /models/pull` call as observed by
`addModel`: the fetch itself rejects with message `msg`; or the response
arrives with a non-ok HTTP `status`; or it is ok and carries a streamed
body. -/
inductive PullResult where
  | netError (msg : String)
  | httpError (status : Nat)
  | ok (body : BodyStream)
deriving DecidableEq

/-- A request issued against the Model Registry Gateway. -/
inductive GatewayCall where
  | listModels
  | pullModel (name : String)
deriving DecidableEq

/-- The intermediate states of `fetchLocalModels`, one per assignment:
set the info status, set `isLoading`, then either replace `localModels`
(`data.models || []`) and clear the status, or set the connection error
status; the `finally` clears `isLoading`. -/
def fetchStates (s : ClientState) (r : ListResult) : List ClientState :=
  let s1 := { s with statusMessage := "Fetching local models..." }
  let s2 := { s1 with isLoading := true }
  let body :=
    match r with
    | .failure =>
        [{ s2 with statusMessage := "Error: Could not connect to the backend." }]
    | .success mods =>
        let s3 := { s2 with localModels := mods.getD [] }
        [s3, { s3 with statusMessage := "" }]
  let sE := body.getLastD s2
  [s1, s2] ++ body ++ [{ sE with isLoading := false }]

/-- The state in which `fetchLocalModels` leaves the component. -/
def fetchLocalModels (s : ClientState) (r : ListResult) : ClientState :=
  (fetchStates s r).getLastD s

/-- The Gateway requests issued by one run of `fetchLocalModels`. -/
def fetchCalls : List GatewayCall := [.listModels]

/-- The status text set before the pull request is issued. -/
def pullMsg (t : String) : String :=
  "Pulling model: " ++ t ++ "... (This can take a while)"

/-- The error message thrown on a non-ok pull response. -/
def httpErrMsg (n : Nat) : String :=
  "Failed to pull model. Server responded with status " ++ toString n

/-- The status text set on the pull success path. -/
def successMsg (t : String) : String :=
  "Success! Model '" ++ t ++ "' has been pulled."

/-- The status text set when `addModel` is invoked with a falsy target
(the empty string). -/
def emptyTargetMsg : String := "Error: Please enter or select a model name."

/-- The intermediate states of `addModel` before the nested
`fetchLocalModels` call and before the `finally` block: set the pulling
status, set `isLoading`, set `pullingModel`; then, depending on the pull
outcome, either set a catch-path error status, or set the success status
and clear `newModelName`. Only meaningful for a truthy (non-empty)
target. -/
def addStatesPre (s : ClientState) (target : String) (pr : PullResult) :
    List ClientState :=
  let s1 := { s with statusMessage := pullMsg target }
  let s2 := { s1 with isLoading := true }
  let s3 := { s2 with pullingModel := target }
  let rest :=
    match pr with
    | .netError m => [{ s3 with statusMessage := "Error: " ++ m }]
    | .httpError n => [{ s3 with statusMessage := "Error: " ++ httpErrMsg n }]
    | .ok b =>
        if readFails b then
          [{ s3 with statusMessage := "Error: " ++ b.errMsg }]
        else
          let s4 := { s3 with statusMessage := successMsg target }
          [s4, { s4 with newModelName := "" }]
  [s1, s2, s3] ++ rest

/-- The intermediate states contributed by the nested `fetchLocalModels`
invocation on the success path (empty on every other path). -/
def addStatesNested (s : ClientState) (target : String) (pr : PullResult)
    (lr : ListResult) : List ClientState :=
  match pr with
  | .ok b =>
      if readFails b then []
      else fetchStates ((addStatesPre s target pr).getLastD s) lr
  | _ => []

/-- All intermediate states of `addModel`: the falsy-target guard sets
the validation error and returns; otherwise the body runs and the
`finally` block performs its two assignments, `isLoading = false` first
and `pullingModel = ''` second. -/
def addStates (s : ClientState) (target : String) (pr : PullResult)
    (lr : ListResult) : List ClientState :=
  if target = "" then [{ s with statusMessage := emptyTargetMsg }]
  else
    let body := addStatesPre s target pr ++ addStatesNested s target pr lr
    let bE := body.getLastD s
    body ++ [{ bE with isLoading := false },
             { bE with isLoading := false, pullingModel := "" }]

/-- The state in which `addModel` leaves the component. -/
def addModel (s : ClientState) (target : String) (pr : PullResult)
    (lr : ListResult) : ClientState :=
  (addStates s target pr lr).getLastD s

/-- The Gateway requests issued by one run of `addModel`: nothing for a
falsy target; otherwise the pull request, followed by the nested list
request exactly when the success path is reached. -/
def addCalls (target : String) (pr : PullResult) : List GatewayCall :=
  if target = "" then []
  else
    .pullModel target ::
      match pr with
      | .ok b => if readFails b then [] else fetchCalls
      | _ => []

/-- A user-visible step of the component: pressing refresh (or the
initial mount) runs `fetchLocalModels`; submitting the form or clicking
a discover button runs `addModel` with some target; a keystroke mutates
`newModelName` through `v-model`. Each event carries the Gateway
behaviour observed during it. -/
inductive Event where
  | refresh (r : ListResult)
  | pull (target : String) (pr : PullResult) (lr : ListResult)
  | typeName (txt : String)

/-- The intermediate states produced by one event from state `s`. -/
def eventStates (s : ClientState) : Event → List ClientState
  | .refresh r => fetchStates s r
  | .pull t pr lr => addStates s t pr lr
  | .typeName txt => [{ s with newModelName := txt }]

/-- The state after one event. -/
def runEvent (s : ClientState) (e : Event) : ClientState :=
  (eventStates s e).getLastD s

/-- The state after a sequence of events starting at `initState`. -/
def runEvents (evs : List Event) : ClientState :=
  evs.foldl runEvent initState

/-- Every intermediate state of a sequence of events from `s`. -/
def traceFrom (s : ClientState) : List Event → List ClientState
  | [] => []
  | e :: es => eventStates s e ++ traceFrom (runEvent s e) es

/-- Every state reachable from the initial state during `evs`. -/
def trace (evs : List Event) : List ClientState :=
  initState :: traceFrom initState evs

/-- Theme state: the in-memory `theme` ref, the persisted
`localStorage` entry under key `theme`, and the class applied to the
root element. -/
structure ThemeState where
  theme : String
  storage : Option String
  docClass : String
deriving DecidableEq

/-- `setTheme`: update the ref, persist the value, apply the class. -/
def setTheme (_st : ThemeState) (n : String) : ThemeState :=
  { theme := n, storage := some n, docClass := n }

/-- `toggleTheme`: flip between `'dark'` and `'light'`. -/
def toggleTheme (st : ThemeState) : ThemeState :=
  setTheme st (if st.theme = "dark" then "light" else "dark")

/-- The `onMounted` theme initialisation: use the saved theme when
present, otherwise derive it from the ambient color-scheme query. -/
def initTheme (st : ThemeState) (prefersDark : Bool) : ThemeState :=
  match st.storage with
  | some saved => setTheme st saved
  | none => setTheme st (if prefersDark then "dark" else "light")

/-- JavaScript `String.prototype.toLowerCase` on our character lists. -/
def jsToLower (s : String) : String := ⟨s.data.map Char.toLower⟩

/-- Character-by-character prefix test: does `p` read off the front of
`s`? The second argument is matched first so that an empty pattern
matches any text. -/
def listStartsWith (s p : List Char) : Bool :=
  match p, s with
  | [], _ => true
  | _ :: _, [] => false
  | d :: ds, c :: cs => c == d && listStartsWith cs ds

/-- JavaScript `String.prototype.startsWith`: `p` read off the front
of `s`. -/
def startsWithStr (s p : String) : Bool :=
  listStartsWith s.data p.data

/-- The `statusClass` computed property: empty message gives no class,
a message whose lowercasing starts with `error` (resp. `success`) is
classed as error (resp. success), anything else as info. -/
def statusClass (msg : String) : String :=
  if msg = "" then ""
  else if startsWithStr (jsToLower msg) "error" then "status-error"
  else if startsWithStr (jsToLower msg) "success" then "status-success"
  else "status-info"

/-! ### Evaluation lemmas for the workflows -/

theorem strDataAppend (s t : String) : (s ++ t).data = s.data ++ t.data := by
  cases s; cases t; rfl

theorem fetchLocalModels_failure (s : ClientState) :
    fetchLocalModels s .failure =
      { s with statusMessage := "Error: Could not connect to the backend."
               isLoading := false } := rfl

theorem fetchLocalModels_success (s : ClientState)
    (mods : Option (List LocalModel)) :
    fetchLocalModels s (.success mods) =
      { s with localModels := mods.getD [], statusMessage := ""
               isLoading := false } := rfl

theorem addModel_emptyTarget (s : ClientState) (pr : PullResult)
    (lr : ListResult) :
    addModel s "" pr lr = { s with statusMessage := emptyTargetMsg } := rfl

theorem addModel_netError (s : ClientState) (t m : String) (lr : ListResult)
    (ht : t ≠ "") :
    addModel s t (.netError m) lr =
      { s with statusMessage := "Error: " ++ m, isLoading := false
               pullingModel := "" } := by
  simp [addModel, addStates, addStatesPre, addStatesNested, ht,
    List.getLastD]

theorem addModel_httpError (s : ClientState) (t : String) (n : Nat)
    (lr : ListResult) (ht : t ≠ "") :
    addModel s t (.httpError n) lr =
      { s with statusMessage := "Error: " ++ httpErrMsg n, isLoading := false
               pullingModel := "" } := by
  simp [addModel, addStates, addStatesPre, addStatesNested, ht,
    List.getLastD]

theorem addModel_readFail (s : ClientState) (t : String) (b : BodyStream)
    (lr : ListResult) (ht : t ≠ "") (hb : readFails b = true) :
    addModel s t (.ok b) lr =
      { s with statusMessage := "Error: " ++ b.errMsg, isLoading := false
               pullingModel := "" } := by
  simp [addModel, addStates, addStatesPre, addStatesNested, ht, hb,
    List.getLastD]

theorem addModel_success (s : ClientState) (t : String) (b : BodyStream)
    (lr : ListResult) (ht : t ≠ "") (hb : readFails b = false) :
    addModel s t (.ok b) lr =
      { fetchLocalModels
          { s with newModelName := "", statusMessage := successMsg t
                   isLoading := true, pullingModel := t } lr with
        isLoading := false, pullingModel := "" } := by
  cases lr <;>
    simp [addModel, addStates, addStatesPre, addStatesNested, ht, hb,
      fetchStates, fetchLocalModels, List.getLastD]

theorem runEvent_refresh (s : ClientState) (r : ListResult) :
    runEvent s (.refresh r) = fetchLocalModels s r := rfl

theorem runEvent_pull (s : ClientState) (t : String) (pr : PullResult)
    (lr : ListResult) :
    runEvent s (.pull t pr lr) = addModel s t pr lr := rfl

theorem runEvent_typeName (s : ClientState) (txt : String) :
    runEvent s (.typeName txt) = { s with newModelName := txt } := rfl

/-! ### String helper lemmas -/

theorem string_eq_empty_iff (s : String) : s = "" ↔ s.data = [] := by
  constructor
  · intro h; rw [h]
  · intro h; cases s; simp_all

theorem listStartsWith_nil (s : List Char) : listStartsWith s [] = true := by
  cases s <;> rfl

theorem listStartsWith_append_right (a x p : List Char)
    (h : listStartsWith a p = true) : listStartsWith (a ++ x) p = true := by
  induction p generalizing a with
  | nil => exact listStartsWith_nil _
  | cons d ds ih =>
      cases a with
      | nil => exact absurd h (by simp [listStartsWith])
      | cons c cs =>
          simp only [listStartsWith, List.cons_append, Bool.and_eq_true] at h ⊢
          exact ⟨h.1, ih cs h.2⟩

theorem listStartsWith_append_false (c : Char) (cs x : List Char) (d : Char)
    (ds : List Char) (h : (c == d) = false) :
    listStartsWith ((c :: cs) ++ x) (d :: ds) = false := by
  simp [listStartsWith, h]


theorem errorMarker_ne_empty (m : String) : ("Error: " ++ m) ≠ "" := by
  intro h
  rw [string_eq_empty_iff, strDataAppend] at h
  exact absurd (List.append_eq_nil.mp h).1 (by decide)

theorem startsWithStr_errorMarker (m : String) :
    startsWithStr ("Error: " ++ m) "Error" = true := by
  unfold startsWithStr
  rw [strDataAppend]
  exact listStartsWith_append_right "Error: ".data m.data "Error".data
    (by decide)

theorem statusClass_errorMarker (m : String) :
    statusClass ("Error: " ++ m) = "status-error" := by
  have hsw : startsWithStr (jsToLower ("Error: " ++ m)) "error" = true := by
    unfold startsWithStr jsToLower
    show listStartsWith (("Error: " ++ m).data.map Char.toLower) _ = true
    rw [strDataAppend, List.map_append]
    have h7 : "Error: ".data.map Char.toLower = "error: ".data := by decide
    rw [h7]
    exact listStartsWith_append_right "error: ".data
      (m.data.map Char.toLower) "error".data (by decide)
  unfold statusClass
  rw [if_neg (errorMarker_ne_empty m), if_pos hsw]

theorem successMsg_ne_empty (t : String) : successMsg t ≠ "" := by
  intro h
  rw [successMsg, string_eq_empty_iff, strDataAppend, strDataAppend] at h
  exact absurd (List.append_eq_nil.mp (List.append_eq_nil.mp h).1).1 (by decide)

theorem startsWithStr_successMsg (t : String) :
    startsWithStr (successMsg t) "Success" = true := by
  unfold startsWithStr successMsg
  rw [strDataAppend, strDataAppend, List.append_assoc]
  exact listStartsWith_append_right "Success! Model '".data
    (t.data ++ "' has been pulled.".data) "Success".data (by decide)

theorem statusClass_successMsg (t : String) :
    statusClass (successMsg t) = "status-success" := by
  have hd : (jsToLower (successMsg t)).data =
      "success! model '".data ++
        (t.data.map Char.toLower ++
          "' has been pulled.".data.map Char.toLower) := by
    show (successMsg t).data.map Char.toLower = _
    rw [successMsg, strDataAppend, strDataAppend, List.map_append,
      List.map_append, List.append_assoc]
    have h7 : "Success! Model '".data.map Char.toLower =
        "success! model '".data := by decide
    rw [h7]
  have herr : startsWithStr (jsToLower (successMsg t)) "error" = false := by
    unfold startsWithStr
    rw [hd]
    have h8 : ("success! model '").data = 's' :: "uccess! model '".data := by
      decide
    rw [h8]
    exact listStartsWith_append_false 's' "uccess! model '".data _ 'e'
      "rror".data (by decide)
  have hsucc : startsWithStr (jsToLower (successMsg t)) "success" = true := by
    unfold startsWithStr
    rw [hd]
    exact listStartsWith_append_right "success! model '".data _ "success".data
      (by decide)
  unfold statusClass
  rw [if_neg (successMsg_ne_empty t), herr,
    if_neg Bool.false_ne_true, if_pos hsucc]

/-! ### Flag bookkeeping across events -/

theorem addModel_flags (s : ClientState) (t : String) (pr : PullResult)
    (lr : ListResult) (ht : t ≠ "") :
    (addModel s t pr lr).isLoading = false ∧
    (addModel s t pr lr).pullingModel = "" := by
  cases pr with
  | netError m => rw [addModel_netError s t m lr ht]; exact ⟨rfl, rfl⟩
  | httpError n => rw [addModel_httpError s t n lr ht]; exact ⟨rfl, rfl⟩
  | ok b =>
      cases hb : readFails b with
      | true => rw [addModel_readFail s t b lr ht hb]; exact ⟨rfl, rfl⟩
      | false => rw [addModel_success s t b lr ht hb]; exact ⟨rfl, rfl⟩

theorem runEvent_flags (s : ClientState) (e : Event)
    (h1 : s.isLoading = false) (h2 : s.pullingModel = "") :
    (runEvent s e).isLoading = false ∧ (runEvent s e).pullingModel = "" := by
  cases e with
  | refresh r =>
      rw [runEvent_refresh]
      cases r with
      | failure => rw [fetchLocalModels_failure]; exact ⟨rfl, h2⟩
      | success mods => rw [fetchLocalModels_success]; exact ⟨rfl, h2⟩
  | pull t pr lr =>
      rw [runEvent_pull]
      by_cases ht : t = ""
      · subst ht; rw [addModel_emptyTarget]; exact ⟨h1, h2⟩
      · exact addModel_flags s t pr lr ht
  | typeName txt => rw [runEvent_typeName]; exact ⟨h1, h2⟩

theorem foldl_runEvent_flags (evs : List Event) :
    ∀ s : ClientState, s.isLoading = false → s.pullingModel = "" →
      (evs.foldl runEvent s).isLoading = false ∧
      (evs.foldl runEvent s).pullingModel = "" := by
  induction evs with
  | nil => intro s h1 h2; exact ⟨h1, h2⟩
  | cons e es ih =>
      intro s h1 h2
      have h := runEvent_flags s e h1 h2
      exact ih (runEvent s e) h.1 h.2

theorem runEvents_quiescent (evs : List Event) :
    (runEvents evs).isLoading = false ∧ (runEvents evs).pullingModel = "" :=
  foldl_runEvent_flags evs initState rfl rfl

/-! ### Claims -/

/-- C4: for every Gateway list response, a successful run of
`fetchLocalModels` replaces `localModels` with exactly the returned
sequence in order (the empty sequence when the `models` field is
absent) and clears `statusMessage`. -/
theorem C4_fetch_success_replaces_models :
    ∀ (s : ClientState) (l : List LocalModel),
      (fetchLocalModels s (.success (some l))).localModels = l ∧
      (fetchLocalModels s (.success (some l))).statusMessage = "" ∧
      (fetchLocalModels s (.success none)).localModels = [] ∧
      (fetchLocalModels s (.success none)).statusMessage = "" := by
  intro s l
  rw [fetchLocalModels_success, fetchLocalModels_success]
  exact ⟨rfl, rfl, rfl, rfl⟩

/-- C6: when the Gateway list call raises, `fetchLocalModels` leaves
`localModels` unchanged and sets the status to the error text
"Could not connect to the backend." (classed as an error). -/
theorem C6_fetch_failure_keeps_models :
    ∀ s : ClientState,
      (fetchLocalModels s .failure).localModels = s.localModels ∧
      (fetchLocalModels s .failure).statusMessage =
        "Error: " ++ "Could not connect to the backend." ∧
      statusClass (fetchLocalModels s .failure).statusMessage =
        "status-error" := by
  intro s
  rw [fetchLocalModels_failure]
  refine ⟨rfl, ?_, ?_⟩
  · show ("Error: Could not connect to the backend." : String) = _
    decide
  · show statusClass "Error: Could not connect to the backend." = _
    decide

/-- C8: from either theme value, two `toggleTheme` calls return the
in-memory theme to its original value, and the value persisted after
the second call is that original value. -/
theorem C8_toggleTheme_involution :
    ∀ st : ThemeState, st.theme = "light" ∨ st.theme = "dark" →
      (toggleTheme (toggleTheme st)).theme = st.theme ∧
      (toggleTheme (toggleTheme st)).storage = some st.theme := by
  intro st h
  rcases h with h | h <;> simp [toggleTheme, setTheme, h]

/-- Witness for C8 at the concrete state `⟨"light", none, ""⟩`. -/
theorem C8_toggleTheme_involution_witness :
    ((ThemeState.mk "light" none "").theme = "light" ∨
      (ThemeState.mk "light" none "").theme = "dark") ∧
    (toggleTheme (toggleTheme (ThemeState.mk "light" none ""))).theme =
      (ThemeState.mk "light" none "").theme ∧
    (toggleTheme (toggleTheme (ThemeState.mk "light" none ""))).storage =
      some (ThemeState.mk "light" none "").theme :=
  ⟨Or.inl rfl, C8_toggleTheme_involution (ThemeState.mk "light" none "")
    (Or.inl rfl)⟩

/-- C2 counterexample: the guard `if (!modelToPull)` rejects only the
empty string. The whitespace-only target `" "` is truthy, so `addModel`
does issue the Gateway pull request for it and never sets the
"Please enter or select" validation error. -/
theorem C2_counterexample :
    (" " : String) ≠ "" ∧
    ((" " : String).data.all fun c => c == ' ') = true ∧
    addCalls " " (.netError "connection refused") = [.pullModel " "] ∧
    (addModel initState " " (.netError "connection refused")
        .failure).statusMessage = "Error: connection refused" ∧
    (addModel initState " " (.netError "connection refused")
        .failure).statusMessage ≠ emptyTargetMsg := by
  refine ⟨by decide, by decide, by decide, ?_, ?_⟩ <;> decide

/-- C2 amended: only the empty target is rejected. For the empty target,
`addModel` issues no Gateway request, sets the validation error status
and returns with every other field unchanged (its whole trace is that
single assignment); whitespace-only targets are not rejected. -/
theorem C2_amended_empty_target_only :
    ∀ (s : ClientState) (pr : PullResult) (lr : ListResult),
      addCalls "" pr = [] ∧
      addStates s "" pr lr = [{ s with statusMessage := emptyTargetMsg }] ∧
      addModel s "" pr lr = { s with statusMessage := emptyTargetMsg } ∧
      (addModel s "" pr lr).localModels = s.localModels ∧
      (addModel s "" pr lr).newModelName = s.newModelName ∧
      (addModel s "" pr lr).isLoading = s.isLoading ∧
      (addModel s "" pr lr).pullingModel = s.pullingModel := by
  intro s pr lr
  exact ⟨rfl, rfl, rfl, rfl, rfl, rfl, rfl⟩

/-- C5: when the pull response carries a non-ok HTTP status `n`,
`addModel` sets an error status whose text embeds the decimal status
code, leaves `localModels` untouched, and issues no list request (no
implicit `fetchLocalModels`). -/
theorem C5_pull_http_error :
    ∀ (s : ClientState) (t : String) (n : Nat) (lr : ListResult), t ≠ "" →
      (addModel s t (.httpError n) lr).statusMessage =
        "Error: " ++ httpErrMsg n ∧
      (∃ pre : List Char,
        (addModel s t (.httpError n) lr).statusMessage.data =
          pre ++ (toString n).data) ∧
      statusClass (addModel s t (.httpError n) lr).statusMessage =
        "status-error" ∧
      (addModel s t (.httpError n) lr).localModels = s.localModels ∧
      addCalls t (.httpError n) = [.pullModel t] := by
  intro s t n lr ht
  rw [addModel_httpError s t n lr ht]
  refine ⟨rfl, ?_, ?_, rfl, ?_⟩
  · refine ⟨("Error: Failed to pull model. Server responded with status "
      : String).data, ?_⟩
    show ("Error: " ++ httpErrMsg n).data = _
    simp only [httpErrMsg]
    rw [strDataAppend, strDataAppend, ← List.append_assoc]
    congr 1
  · show statusClass ("Error: " ++ httpErrMsg n) = _
    exact statusClass_errorMarker (httpErrMsg n)
  · simp [addCalls, ht]

/-- Witness for C5 at `t = "gemma:2b"`, `n = 500`. -/
theorem C5_pull_http_error_witness :
    ("gemma:2b" : String) ≠ "" ∧
    ((addModel initState "gemma:2b" (.httpError 500) .failure).statusMessage =
        "Error: " ++ httpErrMsg 500 ∧
      (∃ pre : List Char,
        (addModel initState "gemma:2b" (.httpError 500)
            .failure).statusMessage.data = pre ++ (toString 500).data) ∧
      statusClass (addModel initState "gemma:2b" (.httpError 500)
          .failure).statusMessage = "status-error" ∧
      (addModel initState "gemma:2b" (.httpError 500) .failure).localModels =
        initState.localModels ∧
      addCalls "gemma:2b" (.httpError 500) = [.pullModel "gemma:2b"]) :=
  ⟨by decide, C5_pull_http_error initState "gemma:2b" 500 .failure (by decide)⟩

/-- C7: the scoped cleanup always runs. `fetchLocalModels` exits with
`isLoading = false` for every Gateway outcome; `addModel` with a truthy
target exits with `isLoading = false` and `pullingModel = ""` for every
pull and list outcome; and after any completed sequence of events from
the initial state both flags are cleared. -/
theorem C7_scoped_cleanup :
    (∀ (s : ClientState) (r : ListResult),
      (fetchLocalModels s r).isLoading = false) ∧
    (∀ (s : ClientState) (t : String) (pr : PullResult) (lr : ListResult),
      t ≠ "" →
      (addModel s t pr lr).isLoading = false ∧
      (addModel s t pr lr).pullingModel = "") ∧
    (∀ evs : List Event,
      (runEvents evs).isLoading = false ∧
      (runEvents evs).pullingModel = "") := by
  refine ⟨?_, ?_, runEvents_quiescent⟩
  · intro s r
    cases r with
    | failure => rw [fetchLocalModels_failure]
    | success mods => rw [fetchLocalModels_success]
  · intro s t pr lr ht
    exact addModel_flags s t pr lr ht

/-- Witness for C7 at a concrete transport-error pull. -/
theorem C7_scoped_cleanup_witness :
    ("llama3:8b" : String) ≠ "" ∧
    ((addModel initState "llama3:8b" (.netError "unreachable")
        .failure).isLoading = false ∧
      (addModel initState "llama3:8b" (.netError "unreachable")
        .failure).pullingModel = "") :=
  ⟨by decide, C7_scoped_cleanup.2.1 initState "llama3:8b"
    (.netError "unreachable") .failure (by decide)⟩

/-- C9: `addModel` touches `newModelName` only on its success path,
where it clears it unconditionally (for any prior `newModelName`, equal
to the target or not); the validation path and every failure path leave
it unchanged. -/
theorem C9_pendingName_frame :
    ∀ (s : ClientState) (t : String) (lr : ListResult),
      (∀ pr : PullResult,
        (addModel s "" pr lr).newModelName = s.newModelName) ∧
      (t ≠ "" →
        (∀ m, (addModel s t (.netError m) lr).newModelName =
          s.newModelName) ∧
        (∀ n, (addModel s t (.httpError n) lr).newModelName =
          s.newModelName) ∧
        (∀ b, readFails b = true →
          (addModel s t (.ok b) lr).newModelName = s.newModelName) ∧
        (∀ b, readFails b = false →
          (addModel s t (.ok b) lr).newModelName = "")) := by
  intro s t lr
  refine ⟨fun pr => rfl, fun ht => ⟨?_, ?_, ?_, ?_⟩⟩
  · intro m; rw [addModel_netError s t m lr ht]
  · intro n; rw [addModel_httpError s t n lr ht]
  · intro b hb; rw [addModel_readFail s t b lr ht hb]
  · intro b hb
    cases lr with
    | failure =>
        rw [addModel_success s t b .failure ht hb, fetchLocalModels_failure]
    | success mods =>
        rw [addModel_success s t b (.success mods) ht hb,
          fetchLocalModels_success]

/-- Witness for C9: a success-path pull whose target differs from the
pending name still clears `newModelName`. -/
theorem C9_pendingName_frame_witness :
    ("gemma:2b" : String) ≠ "" ∧
    readFails (BodyStream.mk 1 false "") = false ∧
    (addModel (ClientState.mk [] "other-model" "" false "") "gemma:2b"
        (.ok (BodyStream.mk 1 false "")) (.success none)).newModelName =
      "" :=
  ⟨by decide, by decide,
    ((C9_pendingName_frame (ClientState.mk [] "other-model" "" false "")
        "gemma:2b" (.success none)).2 (by decide)).2.2.2
      (BodyStream.mk 1 false "") (by decide)⟩

/-! ### Explicit shapes of the pre-cleanup trace -/

theorem addStatesPre_netError (s : ClientState) (t m : String) :
    addStatesPre s t (.netError m) =
      [{ s with statusMessage := pullMsg t },
       { s with statusMessage := pullMsg t, isLoading := true },
       { s with statusMessage := pullMsg t, isLoading := true
                pullingModel := t },
       { s with statusMessage := "Error: " ++ m, isLoading := true
                pullingModel := t }] := rfl

theorem addStatesPre_httpError (s : ClientState) (t : String) (n : Nat) :
    addStatesPre s t (.httpError n) =
      [{ s with statusMessage := pullMsg t },
       { s with statusMessage := pullMsg t, isLoading := true },
       { s with statusMessage := pullMsg t, isLoading := true
                pullingModel := t },
       { s with statusMessage := "Error: " ++ httpErrMsg n, isLoading := true
                pullingModel := t }] := rfl

theorem addStatesPre_readFail (s : ClientState) (t : String)
    (b : BodyStream) (hb : readFails b = true) :
    addStatesPre s t (.ok b) =
      [{ s with statusMessage := pullMsg t },
       { s with statusMessage := pullMsg t, isLoading := true },
       { s with statusMessage := pullMsg t, isLoading := true
                pullingModel := t },
       { s with statusMessage := "Error: " ++ b.errMsg, isLoading := true
                pullingModel := t }] := by
  simp [addStatesPre, hb]

theorem addStatesPre_readOk (s : ClientState) (t : String)
    (b : BodyStream) (hb : readFails b = false) :
    addStatesPre s t (.ok b) =
      [{ s with statusMessage := pullMsg t },
       { s with statusMessage := pullMsg t, isLoading := true },
       { s with statusMessage := pullMsg t, isLoading := true
                pullingModel := t },
       { s with statusMessage := successMsg t, isLoading := true
                pullingModel := t },
       { s with newModelName := "", statusMessage := successMsg t
                isLoading := true, pullingModel := t }] := by
  simp [addStatesPre, hb]

/-- C3 counterexample: the claimed invariant "busy whenever
pullingTarget is non-empty" fails in a reachable state. During the
scoped cleanup of a pull that hit a transport error, `isLoading` has
already been cleared while `pullingModel` still holds the target. -/
theorem C3_counterexample :
    (ClientState.mk [] "" "Error: x" false "m") ∈
      trace [Event.pull "m" (.netError "x") .failure] ∧
    (ClientState.mk [] "" "Error: x" false "m").pullingModel ≠ "" ∧
    (ClientState.mk [] "" "Error: x" false "m").isLoading = false := by
  refine ⟨?_, by decide, by decide⟩
  decide

/-- C3 amended: at every completed event the flags are quiescent
(`isLoading = false`, `pullingModel = ""`), and within a pull entered
from a state with empty `pullingTarget` the invariant "`pullingModel`
non-empty implies `isLoading`" holds for every state up to the start of
the nested `fetchLocalModels` refresh; it is only the tail of the run —
the nested refresh having cleared `isLoading`, or the scoped cleanup
between its two assignments — that can show `pullingModel` non-empty
with `isLoading` already false. -/
theorem C3_amended_busy_invariant :
    (∀ evs : List Event,
      (runEvents evs).isLoading = false ∧
      (runEvents evs).pullingModel = "") ∧
    (∀ (s : ClientState) (t : String) (pr : PullResult),
      s.pullingModel = "" →
      ∀ c ∈ addStatesPre s t pr, c.pullingModel ≠ "" →
        c.isLoading = true) := by
  refine ⟨runEvents_quiescent, ?_⟩
  intro s t pr hq c hc hne
  cases pr with
  | netError m =>
      rw [addStatesPre_netError] at hc
      simp only [List.mem_cons, List.not_mem_nil, or_false] at hc
      rcases hc with h | h | h | h <;> subst h <;>
        first | rfl | exact absurd hq hne
  | httpError n =>
      rw [addStatesPre_httpError] at hc
      simp only [List.mem_cons, List.not_mem_nil, or_false] at hc
      rcases hc with h | h | h | h <;> subst h <;>
        first | rfl | exact absurd hq hne
  | ok b =>
      cases hb : readFails b with
      | true =>
          rw [addStatesPre_readFail s t b hb] at hc
          simp only [List.mem_cons, List.not_mem_nil, or_false] at hc
          rcases hc with h | h | h | h <;> subst h <;>
            first | rfl | exact absurd hq hne
      | false =>
          rw [addStatesPre_readOk s t b hb] at hc
          simp only [List.mem_cons, List.not_mem_nil, or_false] at hc
          rcases hc with h | h | h | h | h <;> subst h <;>
            first | rfl | exact absurd hq hne

/-- Witness for C3's amended invariant on a concrete pre-cleanup
state of a pull from the initial state. -/
theorem C3_amended_busy_invariant_witness :
    initState.pullingModel = "" ∧
    (ClientState.mk [] "" (pullMsg "m") true "m") ∈
      addStatesPre initState "m" (.netError "x") ∧
    (ClientState.mk [] "" (pullMsg "m") true "m").isLoading = true :=
  ⟨rfl, by decide,
    C3_amended_busy_invariant.2 initState "m" (.netError "x") rfl
      (ClientState.mk [] "" (pullMsg "m") true "m") (by decide) (by decide)⟩

/-- C1 counterexample: `addModel` awaits only a single
`reader.read()`, not the whole stream. With a body of two pending
progress chunks followed by a transport error, the single read succeeds,
so the workflow takes the success path (the success status appears in
its trace, `newModelName` is cleared, the list refresh is issued) even
though the transport never signals end-of-stream — indeed this stream
can never reach a clean end at all. -/
theorem C1_counterexample :
    readFails (BodyStream.mk 2 true "connection reset") = false ∧
    endOfStreamSignaled (BodyStream.mk 2 true "connection reset") = false ∧
    (BodyStream.mk 2 true "connection reset").endsInError = true ∧
    addCalls "gemma:2b" (.ok (BodyStream.mk 2 true "connection reset")) =
      [.pullModel "gemma:2b", .listModels] ∧
    (ClientState.mk [] "gemma:2b" (successMsg "gemma:2b") true "gemma:2b") ∈
      addStates (ClientState.mk [] "gemma:2b" "" false "") "gemma:2b"
        (.ok (BodyStream.mk 2 true "connection reset")) (.success none) ∧
    (addModel (ClientState.mk [] "gemma:2b" "" false "") "gemma:2b"
        (.ok (BodyStream.mk 2 true "connection reset"))
        (.success none)).newModelName = "" := by
  refine ⟨by decide, by decide, by decide, by decide, ?_, by decide⟩
  decide

/-- C1 amended: after an HTTP-success pull response the workflow
performs exactly one read of the streamed body and proceeds to the
success path (success status set, `newModelName` cleared, list refresh
issued) as soon as that single read completes without rejecting —
regardless of whether the transport has signalled end-of-stream. Only
when that first read itself rejects (empty stream ending in a transport
error) is the error path taken. -/
theorem C1_amended_single_read_success :
    ∀ (s : ClientState) (t : String) (b : BodyStream) (lr : ListResult),
      t ≠ "" →
      (readFails b = false →
        { s with statusMessage := successMsg t, isLoading := true
                 pullingModel := t } ∈ addStates s t (.ok b) lr ∧
        (addModel s t (.ok b) lr).newModelName = "" ∧
        addCalls t (.ok b) = [.pullModel t, .listModels]) ∧
      (readFails b = true →
        addCalls t (.ok b) = [.pullModel t] ∧
        (addModel s t (.ok b) lr).statusMessage = "Error: " ++ b.errMsg ∧
        statusClass (addModel s t (.ok b) lr).statusMessage =
          "status-error") := by
  intro s t b lr ht
  constructor
  · intro hb
    refine ⟨?_, ?_, by simp [addCalls, fetchCalls, ht, hb]⟩
    · have hmem : { s with statusMessage := successMsg t, isLoading := true
                           pullingModel := t } ∈ addStatesPre s t (.ok b) := by
        rw [addStatesPre_readOk s t b hb]
        simp
      simp only [addStates, ht, if_false, ite_false]
      exact List.mem_append.mpr (Or.inl (List.mem_append.mpr (Or.inl hmem)))
    · cases lr with
      | failure =>
          rw [addModel_success s t b .failure ht hb, fetchLocalModels_failure]
      | success mods =>
          rw [addModel_success s t b (.success mods) ht hb,
            fetchLocalModels_success]
  · intro hb
    rw [addModel_readFail s t b lr ht hb]
    exact ⟨by simp [addCalls, ht, hb], rfl, statusClass_errorMarker b.errMsg⟩

/-- Witness for C1's amended statement at a concrete one-chunk stream. -/
theorem C1_amended_single_read_success_witness :
    ("phi3:latest" : String) ≠ "" ∧
    readFails (BodyStream.mk 1 false "") = false ∧
    ({ initState with statusMessage := successMsg "phi3:latest"
                      isLoading := true, pullingModel := "phi3:latest" } ∈
      addStates initState "phi3:latest" (.ok (BodyStream.mk 1 false ""))
        (.success none) ∧
      (addModel initState "phi3:latest" (.ok (BodyStream.mk 1 false ""))
        (.success none)).newModelName = "" ∧
      addCalls "phi3:latest" (.ok (BodyStream.mk 1 false "")) =
        [.pullModel "phi3:latest", .listModels]) :=
  ⟨by decide, by decide,
    (C1_amended_single_read_success initState "phi3:latest"
      (BodyStream.mk 1 false "") (.success none) (by decide)).1 (by decide)⟩

/-- C10: the rendered status kind is a pure function of the message
text: the error class exactly when the lowercased message starts with
"error", the success class exactly when it starts with "success" (and
not with "error"), the info class for any other non-empty message, and
no class for the empty message. Every error-path message of the two
workflows starts with "Error" and is classed as an error, and the pull
success message starts with "Success" and is classed as a success. -/
theorem C10_statusClass_pure_function :
    statusClass "" = "" ∧
    (∀ msg : String, msg ≠ "" →
      (statusClass msg = "status-error" ↔
        startsWithStr (jsToLower msg) "error" = true) ∧
      (statusClass msg = "status-success" ↔
        (startsWithStr (jsToLower msg) "success" = true ∧
         startsWithStr (jsToLower msg) "error" = false)) ∧
      (statusClass msg = "status-info" ↔
        (startsWithStr (jsToLower msg) "error" = false ∧
         startsWithStr (jsToLower msg) "success" = false))) ∧
    (∀ m : String, startsWithStr ("Error: " ++ m) "Error" = true ∧
      statusClass ("Error: " ++ m) = "status-error") ∧
    (∀ t : String, startsWithStr (successMsg t) "Success" = true ∧
      statusClass (successMsg t) = "status-success") ∧
    (∀ s : ClientState,
      statusClass (fetchLocalModels s .failure).statusMessage =
        "status-error") ∧
    (∀ (s : ClientState) (pr : PullResult) (lr : ListResult),
      statusClass (addModel s "" pr lr).statusMessage = "status-error") ∧
    (∀ (s : ClientState) (t m : String) (lr : ListResult), t ≠ "" →
      statusClass (addModel s t (.netError m) lr).statusMessage =
        "status-error") := by
  refine ⟨by decide, ?_, ?_, ?_, ?_, ?_, ?_⟩
  · intro msg hne
    unfold statusClass
    rw [if_neg hne]
    cases h1 : startsWithStr (jsToLower msg) "error" <;>
      cases h2 : startsWithStr (jsToLower msg) "success" <;> decide
  · intro m
    exact ⟨startsWithStr_errorMarker m, statusClass_errorMarker m⟩
  · intro t
    exact ⟨startsWithStr_successMsg t, statusClass_successMsg t⟩
  · intro s
    rw [fetchLocalModels_failure]
    show statusClass "Error: Could not connect to the backend." = _
    decide
  · intro s pr lr
    show statusClass emptyTargetMsg = _
    decide
  · intro s t m lr ht
    rw [addModel_netError s t m lr ht]
    exact statusClass_errorMarker m

/-- Witness for C10 at the non-empty info message set while fetching. -/
theorem C10_statusClass_pure_function_witness :
    ("Fetching local models..." : String) ≠ "" ∧
    (statusClass "Fetching local models..." = "status-info" ↔
      (startsWithStr (jsToLower "Fetching local models...") "error" = false ∧
       startsWithStr (jsToLower "Fetching local models...") "success" =
         false)) :=
  ⟨by decide,
    (C10_statusClass_pure_function.2.1 "Fetching local models..."
      (by decide)).2.2⟩
